import Mathlib

/-!
Shallow embedding of the opengraph-io MCP server's session/protocol core
(src/mcp.ts, src/server.ts, src/server-http.ts, src/utils/sessionIdToAppId.ts,
src/utils/og.ts) together with proofs about its request handlers,
subscription bookkeeping, log-level filtering, URI validation and
session/identity routing.

JavaScript-specific behaviour (truthiness, `parseInt`, `String.prototype`
helpers, `Map` semantics) is modelled by small `js`-prefixed helpers so the
handler definitions below can follow the TypeScript source line by line.
-/

namespace OgMcp

/-! ## JavaScript semantics helpers -/

/-- JS truthiness of a possibly-undefined string (`undefined` and `""` are falsy). -/
def jsTruthy : Option String → Bool
  | none => false
  | some s => s ≠ ""

/-- JS `a || d` for a possibly-undefined string `a` with string default `d`. -/
def jsOrStr (a : Option String) (d : String) : String :=
  match a with
  | none => d
  | some s => if s = "" then d else s

/-- JS `String.prototype.startsWith`, computed on the character lists. -/
def jsStartsWith (s pre : String) : Bool :=
  pre.data.isPrefixOf s.data

/-- JS `String.prototype.toLowerCase` (ASCII is all this server compares). -/
def jsToLowerCase (s : String) : String :=
  ⟨s.data.map Char.toLower⟩

/-- Split a character list at every occurrence of `sep`, JS `split` style
(`"" ↦ [""]`, trailing separator yields a trailing empty group). -/
def splitChar (sep : Char) : List Char → List (List Char)
  | [] => [[]]
  | c :: rest =>
    let r := splitChar sep rest
    if c = sep then [] :: r
    else
      match r with
      | [] => [[c]]
      | g :: gs => (c :: g) :: gs

/-- JS `s.split("/")` returning strings. -/
def jsSplitSlash (s : String) : List String :=
  (splitChar '/' s.data).map fun cs => ⟨cs⟩

/-- Hexadecimal digit test (`[0-9a-fA-F]`). -/
def isHexChar (c : Char) : Bool :=
  c.isDigit || ('a' ≤ c && c ≤ 'f') || ('A' ≤ c && c ≤ 'F')

/-- The UUID test of `mcp.ts` (regex `^[0-9a-f]{8}-[0-9a-f]{4}-[0-9a-f]{4}-
[0-9a-f]{4}-[0-9a-f]{12}$` with the `i` flag): five hyphen-separated
hex groups of lengths 8, 4, 4, 4, 12. -/
def isUuid (s : String) : Bool :=
  match splitChar '-' s.data with
  | [a, b, c, d, e] =>
    a.length = 8 && b.length = 4 && c.length = 4 && d.length = 4 &&
    e.length = 12 && (a ++ b ++ c ++ d ++ e).all isHexChar
  | _ => false

/-- Leading decimal digits of a character list as a natural number,
paired with a flag telling whether at least one digit was consumed. -/
def takeDigits : List Char → Nat → Bool → (Nat × Bool)
  | [], acc, seen => (acc, seen)
  | c :: rest, acc, seen =>
    if c.isDigit then takeDigits rest (acc * 10 + (c.toNat - '0'.toNat)) true
    else (acc, seen)

/-- JS `parseInt(s, 10)`: skip leading whitespace, optional sign, parse the
longest digit prefix; `NaN` (here `none`) when no digit is found.
`parseInt` of an absent value coerces `undefined` to `"undefined"`, which
also parses to `NaN`. -/
def jsParseInt : Option String → Option Int
  | none => none
  | some s =>
    let cs := s.data.dropWhile fun c => c.isWhitespace
    match cs with
    | '-' :: rest =>
      match takeDigits rest 0 false with
      | (n, true) => some (-(n : Int))
      | (_, false) => none
    | '+' :: rest =>
      match takeDigits rest 0 false with
      | (n, true) => some (n : Int)
      | (_, false) => none
    | other =>
      match takeDigits other 0 false with
      | (n, true) => some (n : Int)
      | (_, false) => none

/-- JS `x || d` where `x` is a number that may be `NaN` (`none`); `0` is falsy. -/
def jsOrInt (a : Option Int) (d : Int) : Int :=
  match a with
  | none => d
  | some n => if n = 0 then d else n

/-- JS `Array.prototype.findIndex` (`-1` when no element matches). -/
def jsFindIndex (p : α → Bool) (l : List α) : Int :=
  match l.findIdx? p with
  | some i => (i : Int)
  | none => -1

/-! ## Logging levels (`LoggingLevel` of the MCP SDK, `mcp.ts` lines 81-98) -/

/-- The eight MCP logging levels. -/
inductive LoggingLevel
  | debug | info | notice | warning | error | critical | alert | emergency
deriving DecidableEq, Repr, Inhabited

/-- The wire name of a logging level. -/
def LoggingLevel.name : LoggingLevel → String
  | .debug => "debug"
  | .info => "info"
  | .notice => "notice"
  | .warning => "warning"
  | .error => "error"
  | .critical => "critical"
  | .alert => "alert"
  | .emergency => "emergency"

/-- One entry of the `messages` array of `mcp.ts`. -/
structure LogMessage where
  level : LoggingLevel
  data : String
deriving DecidableEq, Repr, Inhabited

/-- The `messages` array of `mcp.ts` (lines 83-92), in source order. -/
def messages : List LogMessage :=
  [⟨.debug, "Debug-level message"⟩,
   ⟨.info, "Info-level message"⟩,
   ⟨.notice, "Notice-level message"⟩,
   ⟨.warning, "Warning-level message"⟩,
   ⟨.error, "Error-level message"⟩,
   ⟨.critical, "Critical-level message"⟩,
   ⟨.alert, "Alert level-message"⟩,
   ⟨.emergency, "Emergency-level message"⟩]

/-- `isMessageIgnored` of `mcp.ts` (lines 94-98): a message is ignored when
its index in `messages` is strictly below the index of the session's
current level. -/
def isMessageIgnored (logLevel level : LoggingLevel) : Bool :=
  let currentLevel := jsFindIndex (fun msg => logLevel = msg.level) messages
  let messageLevel := jsFindIndex (fun msg => level = msg.level) messages
  messageLevel < currentLevel

/-- Position of a level on the severity ladder
`debug < info < notice < warning < error < critical < alert < emergency`. -/
def severityIdx : LoggingLevel → Nat
  | .debug => 0
  | .info => 1
  | .notice => 2
  | .warning => 3
  | .error => 4
  | .critical => 5
  | .alert => 6
  | .emergency => 7

/-! ## Subscription bookkeeping (`mcp.ts` lines 67, 212-224)

The handler state is a JS `Set<string>`, modelled as a duplicate-free list
in insertion order: `Set.add` appends when absent, `Set.delete` removes
the unique occurrence. -/

/-- `subscriptions.add(uri)` (subscribe handler, `mcp.ts` line 214). -/
def subscribeSet (s : List String) (uri : String) : List String :=
  if uri ∈ s then s else s ++ [uri]

/-- `subscriptions.delete(uri)` (unsubscribe handler, `mcp.ts` line 222). -/
def unsubscribeSet (s : List String) (uri : String) : List String :=
  s.erase uri

/-- A subscribe or unsubscribe request for one URI. -/
inductive SubOp
  | sub
  | unsub
deriving DecidableEq, Repr

/-- Apply one subscribe/unsubscribe request for URI `u`. -/
def applySubOp (s : List String) (u : String) : SubOp → List String
  | .sub => subscribeSet s u
  | .unsub => unsubscribeSet s u

/-- Apply a sequence of subscribe/unsubscribe requests for URI `u`. -/
def applySubOps (s : List String) (u : String) : List SubOp → List String
  | [] => s
  | op :: ops => applySubOps (applySubOp s u op) u ops

/-! ## JSON values and the zod input schemas of the tools

Each tool declares its input contract with `z.object(...)` (tool sources
under `src/tools/`); the call handler runs `inputSchema.parse(args)` before
invoking `execute`.  The zod combinators actually used are transcribed into
`FieldType`; `parseObject` implements `z.object` parsing (required keys
must be present and well-typed, `.optional()` keys may be absent,
`.default(v)` fills absent keys, unknown keys are stripped). -/

/-- A JSON value (`undefined` arguments are represented by a non-object,
e.g. `Json.null`, which `z.object` rejects just as zod does). -/
inductive Json
  | null
  | bool (b : Bool)
  | num (n : Rat)
  | str (s : String)
  | arr (elems : List Json)
  | obj (fields : List (String × Json))

/-- Approximation of the WHATWG URL validity check behind `z.string().url()`:
a nonempty alphabetic scheme, the literal `://`, and a nonempty remainder. -/
def isUrlLike (s : String) : Bool :=
  let scheme := s.data.takeWhile fun c => c.isAlpha
  let rest := s.data.drop scheme.length
  !scheme.isEmpty && [':', '/', '/'].isPrefixOf rest && rest.length > 3

/-- The zod field combinators used by the tool schemas. -/
inductive FieldType
  | str
  | strUrl
  | strUuid
  | strEnum (vals : List String)
  | numIntMin0
  | num
  | bool
  | arrStr
  | any
deriving DecidableEq, Repr

/-- One named field of a `z.object` schema. -/
structure Field where
  name : String
  type : FieldType
  optional : Bool := false
  dflt : Option Json := none

/-- Does a present value satisfy a field combinator?
`z.string().uuid()` is checked with the same hex-group pattern as the
resource handler's UUID regex. -/
def checkType : FieldType → Json → Bool
  | .str, .str _ => true
  | .strUrl, .str s => isUrlLike s
  | .strUuid, .str s => isUuid s
  | .strEnum vals, .str s => s ∈ vals
  | .numIntMin0, .num n => n.den = 1 && 0 ≤ n
  | .num, .num _ => true
  | .bool, .bool _ => true
  | .arrStr, .arr xs => xs.all fun x => match x with | .str _ => true | _ => false
  | .any, _ => true
  | _, _ => false

/-- Validate the declared fields of a `z.object` schema against the supplied
key/value pairs, producing the parsed fields (defaults applied, unknown
keys stripped) or `none` on the first violation. -/
def collectFields : List Field → List (String × Json) → Option (List (String × Json))
  | [], _ => some []
  | f :: rest, kvs =>
    match collectFields rest kvs with
    | none => none
    | some tail =>
      match kvs.lookup f.name with
      | some v => if checkType f.type v then some ((f.name, v) :: tail) else none
      | none =>
        match f.dflt with
        | some d => some ((f.name, d) :: tail)
        | none => if f.optional then some tail else none

/-- `z.object(fields).parse`: non-objects are rejected; otherwise validate
field by field. -/
def parseObject (fields : List Field) : Json → Option Json
  | .obj kvs => (collectFields fields kvs).map Json.obj
  | _ => none

/-! ## Tool registry (`src/tools/constants.ts`, `src/tools/index.ts`) -/

/-- The `ToolNames` enum of `constants.ts`. -/
inductive ToolNames
  | getOgData
  | getOgScrapeData
  | getOgScreenshot
  | getOgQuery
  | getOgExtract
  | generateImage
  | iterateImage
  | inspectImageSession
  | exportImageAsset
deriving DecidableEq, Repr

/-- The wire string of each tool name (`constants.ts`). -/
def ToolNames.wire : ToolNames → String
  | .getOgData => "getOgData"
  | .getOgScrapeData => "getOgScrapeData"
  | .getOgScreenshot => "getOgScreenshot"
  | .getOgQuery => "getOgQuery"
  | .getOgExtract => "getOgExtract"
  | .generateImage => "generateImage"
  | .iterateImage => "iterateImage"
  | .inspectImageSession => "inspectImageSession"
  | .exportImageAsset => "exportImageAsset"

/-- The `switch (name)` of the call-tool handler: map a request's tool name
string to the registered tool, `none` for the `default` branch. -/
def toolNameOf (name : String) : Option ToolNames :=
  if name = "getOgData" then some .getOgData
  else if name = "getOgScrapeData" then some .getOgScrapeData
  else if name = "getOgScreenshot" then some .getOgScreenshot
  else if name = "getOgQuery" then some .getOgQuery
  else if name = "getOgExtract" then some .getOgExtract
  else if name = "generateImage" then some .generateImage
  else if name = "iterateImage" then some .iterateImage
  else if name = "inspectImageSession" then some .inspectImageSession
  else if name = "exportImageAsset" then some .exportImageAsset
  else none

/-- The five OpenGraph data tools whose `case` in the call handler checks
the session's App ID before parsing arguments (`mcp.ts` lines 565-603). -/
def requiresAppId : ToolNames → Bool
  | .getOgData => true
  | .getOgScrapeData => true
  | .getOgScreenshot => true
  | .getOgQuery => true
  | .getOgExtract => true
  | _ => false

/-- `z.enum` literals of `generateImage`'s `aspectRatio` field. -/
def aspectRatioVals : List String :=
  ["og-image", "twitter-card", "twitter-post", "linkedin-post",
   "facebook-post", "instagram-square", "instagram-portrait",
   "instagram-story", "youtube-thumbnail", "wide", "square", "portrait",
   "icon-small", "icon-medium", "icon-large"]

/-- `z.enum` literals of `generateImage`'s `stylePreset` field. -/
def stylePresetVals : List String :=
  ["github-dark", "github-light", "notion", "vercel", "linear", "stripe",
   "neon-cyber", "pastel", "minimal-mono", "corporate", "startup",
   "documentation", "technical"]

/-- `z.enum` literals of `generateImage`'s `diagramTemplate` field. -/
def diagramTemplateVals : List String :=
  ["auth-flow", "oauth2-flow", "crud-api", "microservices", "ci-cd",
   "gitflow", "database-schema", "state-machine", "user-journey",
   "cloud-architecture", "system-context"]

/-- The declared `inputSchema` of each tool, transcribed from the tool
sources under `src/tools/`. -/
def toolSchema : ToolNames → List Field
  | .getOgData => [{ name := "url", type := .strUrl }]
  | .getOgScrapeData => [{ name := "url", type := .strUrl }]
  | .getOgScreenshot => [{ name := "url", type := .strUrl }]
  | .getOgQuery =>
    [{ name := "site", type := .strUrl },
     { name := "query", type := .str },
     { name := "responseStructure", type := .any, optional := true }]
  | .getOgExtract =>
    [{ name := "site", type := .strUrl },
     { name := "html_elements", type := .arrStr }]
  | .generateImage =>
    [{ name := "prompt", type := .str, optional := true },
     { name := "kind",
       type := .strEnum ["illustration", "diagram", "icon", "social-card", "qr-code"],
       dflt := some (.str "illustration") },
     { name := "aspectRatio", type := .strEnum aspectRatioVals, optional := true },
     { name := "stylePreset", type := .strEnum stylePresetVals, optional := true },
     { name := "diagramTemplate", type := .strEnum diagramTemplateVals, optional := true },
     { name := "projectContext", type := .str, optional := true },
     { name := "brandColors", type := .arrStr, optional := true },
     { name := "stylePreferences", type := .str, optional := true },
     { name := "referenceAssetId", type := .strUuid, optional := true },
     { name := "diagramSyntax", type := .strEnum ["mermaid", "d2", "vega"], optional := true },
     { name := "diagramCode", type := .str, optional := true },
     { name := "diagramFormat", type := .strEnum ["mermaid", "d2", "vega"], optional := true },
     { name := "template", type := .str, optional := true },
     { name := "labels", type := .arrStr, optional := true },
     { name := "model", type := .str, optional := true },
     { name := "quality", type := .strEnum ["low", "medium", "high", "fast"], optional := true },
     { name := "transparent", type := .bool, optional := true },
     { name := "autoCrop", type := .bool, optional := true },
     { name := "autoCropPadding", type := .num, optional := true },
     { name := "cropX1", type := .numIntMin0, optional := true },
     { name := "cropY1", type := .numIntMin0, optional := true },
     { name := "cropX2", type := .numIntMin0, optional := true },
     { name := "cropY2", type := .numIntMin0, optional := true },
     { name := "cornerRadius", type := .num, optional := true },
     { name := "outputStyle", type := .strEnum ["draft", "standard", "premium"], optional := true },
     { name := "layoutPreservation", type := .strEnum ["strict", "flexible", "creative"], optional := true }]
  | .iterateImage =>
    [{ name := "sessionId", type := .strUuid },
     { name := "assetId", type := .strUuid },
     { name := "prompt", type := .str },
     { name := "cropX1", type := .numIntMin0, optional := true },
     { name := "cropY1", type := .numIntMin0, optional := true },
     { name := "cropX2", type := .numIntMin0, optional := true },
     { name := "cropY2", type := .numIntMin0, optional := true }]
  | .inspectImageSession => [{ name := "sessionId", type := .strUuid }]
  | .exportImageAsset =>
    [{ name := "sessionId", type := .strUuid },
     { name := "assetId", type := .strUuid },
     { name := "destinationPath", type := .str, optional := true }]

/-! ## Credential binding store (`src/utils/sessionIdToAppId.ts`)

The store is a process-wide JS `Map<string, string>`, modelled as an
association list whose keys are unique and kept in insertion order.  The
`typeof sessionId !== 'string'` half of each guard is vacuous in this typed
embedding; the `!sessionId` half is the empty-string test. -/

/-- JS `Map.prototype.set`: overwrite in place when the key exists,
append otherwise. -/
def jsMapSet (m : List (String × String)) (k v : String) : List (String × String) :=
  if k ∈ m.map Prod.fst then
    m.map fun p => if p.1 = k then (k, v) else p
  else m ++ [(k, v)]

/-- `setAppId` of `sessionIdToAppId.ts`: an invalid (empty) session id only
logs a warning and returns, leaving the map untouched; an invalid app id
also only warns and is stored anyway. -/
def setAppId (m : List (String × String)) (sessionId appId : String) : List (String × String) :=
  if sessionId = "" then m
  else jsMapSet m sessionId appId

/-- `getAppId` of `sessionIdToAppId.ts`: `undefined` for an invalid
(empty) session id or an absent key. -/
def getAppId (m : List (String × String)) (sessionId : String) : Option String :=
  if sessionId = "" then none
  else m.lookup sessionId

/-- `deleteAppId` of `sessionIdToAppId.ts`: removing an invalid (empty)
session id only warns; otherwise `Map.prototype.delete` removes the entry. -/
def deleteAppId (m : List (String × String)) (sessionId : String) : List (String × String) :=
  if sessionId = "" then m
  else m.filter fun p => p.1 ≠ sessionId

/-! ## Transports

`server-stdio.ts` connects a `StdioServerTransport` (no `sessionId`
property); `server.ts` an `SSEServerTransport` and `server-http.ts` a
`StreamableHTTPServerTransport`, both of which expose `sessionId`.  The
call-tool handler's `'sessionId' in server.transport` test is therefore
true exactly for the latter two. -/

/-- The connected transport of a server instance. -/
inductive Transport
  | stdio
  | sse (sessionId : String)
  | streamableHttp (sessionId : String)
deriving DecidableEq, Repr

/-- `'sessionId' in server.transport` (`mcp.ts` line 559). -/
def Transport.hasSessionIdProp : Transport → Bool
  | .stdio => false
  | .sse _ => true
  | .streamableHttp _ => true

/-- `server.transport?.sessionId` (only read under `hasSessionIdProp`). -/
def Transport.sessionIdStr : Transport → String
  | .stdio => ""
  | .sse sid => sid
  | .streamableHttp sid => sid

/-! ## Call-tool handler (`mcp.ts` lines 554-629)

A successful dispatch hands the validated arguments to the tool's
`execute`; the `execute` call itself is the external boundary, so the
handler's result is the pair (tool, validated arguments) it would invoke,
and an `Except.error` models a synchronous throw (unknown name, missing
App ID, or a zod parse failure), in which case no `execute` runs. -/

/-- The call-tool request handler: resolve the App ID for session-bearing
transports, switch on the tool name, check the App ID for the OpenGraph
data tools, then `inputSchema.parse(args)` before `execute`. -/
def callToolHandler (t : Transport) (store : List (String × String))
    (name : String) (args : Json) : Except String (ToolNames × Json) :=
  let isSSETransport := t.hasSessionIdProp
  let appId : Option String :=
    if isSSETransport then getAppId store t.sessionIdStr else none
  match toolNameOf name with
  | none => .error ("Unknown tool: " ++ name)
  | some tn =>
    if requiresAppId tn && (isSSETransport && !jsTruthy appId) then
      .error "Could not find App ID for session."
    else
      match parseObject (toolSchema tn) args with
      | none => .error "Invalid arguments: input schema validation failed"
      | some validated => .ok (tn, validated)

/-! ## Completion handler (`mcp.ts` lines 35-40, 631-652) -/

/-- `EXAMPLE_COMPLETIONS` of `mcp.ts`. -/
def EXAMPLE_COMPLETIONS : List (String × List String) :=
  [("diagramType", ["flowchart", "sequence", "architecture", "er-diagram", "state", "other"]),
   ("assetType", ["icons", "social-cards", "diagrams", "illustrations"]),
   ("style", ["outline", "filled", "duotone", "3d"]),
   ("count", ["2", "3", "4", "5", "6", "7", "8", "9", "10"])]

/-- The `ref` of a completion request (`ref/resource` or `ref/prompt`). -/
inductive CompleteRef
  | resource (uri : String)
  | prompt (name : String)
deriving DecidableEq, Repr

/-- The completion request handler: resource refs get no suggestions,
prompt refs filter the candidate list case-insensitively by prefix,
unknown argument names get an empty list. -/
def completeHandler (ref : CompleteRef) (argName argValue : String) :
    Except String (List String) :=
  match ref with
  | .resource _ => .ok []
  | .prompt _ =>
    match EXAMPLE_COMPLETIONS.lookup argName with
    | none => .ok []
    | some completions =>
      .ok (completions.filter fun value =>
        jsStartsWith (jsToLowerCase value) (jsToLowerCase argValue))

/-! ## Prompts (`mcp.ts` lines 43-48, 226-300, 302-548)

`getPromptHandler` follows the `GetPromptRequestSchema` handler: each
registered prompt resolves every argument with a `||`-default and renders
its (fixed) message text around the resolved values.  The static prose of
the four templates is omitted here; a `GetPromptReply` records the prompt
and the exact values the handler substitutes into that prose, which is all
the handler computes from its inputs. -/

/-- A declared prompt argument (name and required flag) as listed by the
`ListPromptsRequestSchema` handler. -/
structure PromptArgDecl where
  name : String
  required : Bool
deriving DecidableEq, Repr

/-- The prompt catalogue returned by the list-prompts handler
(`mcp.ts` lines 226-300): each prompt with its declared arguments. -/
def listPromptsDecl : List (String × List PromptArgDecl) :=
  [("create-branded-diagram", [⟨"diagramType", true⟩, ⟨"description", true⟩]),
   ("iterate-and-refine", [⟨"sessionId", true⟩, ⟨"assetId", true⟩, ⟨"issue", false⟩]),
   ("create-asset-set", [⟨"assetType", true⟩, ⟨"count", true⟩]),
   ("quick-icon", [⟨"iconDescription", true⟩, ⟨"style", false⟩])]

/-- `kindMap` of the `create-asset-set` branch (`mcp.ts` lines 423-428). -/
def kindMap : List (String × String) :=
  [("icons", "icon"), ("social-cards", "social-card"),
   ("diagrams", "diagram"), ("illustrations", "illustration")]

/-- `styleGuide` of the `quick-icon` branch (`mcp.ts` lines 512-517). -/
def styleGuide : List (String × String) :=
  [("outline", "line-art style with consistent 2px stroke weight, no fills"),
   ("filled", "solid filled shapes, clean and simple"),
   ("duotone", "two-tone design with primary color and lighter accent"),
   ("3d", "subtle 3D effect with soft shadows and gradients")]

/-- The values the get-prompt handler substitutes into each template's
message text. -/
inductive GetPromptReply
  | brandedDiagram (diagramType description : String)
  | iterateAndRefine (sessionId assetId : String) (issue : Option String)
  | assetSet (assetType : String) (count : Int) (kind : String)
  | quickIcon (iconDescription style styleDesc : String)
deriving DecidableEq, Repr

/-- The get-prompt request handler (`mcp.ts` lines 302-548): dispatch on
the prompt name; every argument is resolved with its `||`-default and the
message is rendered unconditionally — nothing rejects a missing argument.
An unknown name throws `Unknown prompt`. -/
def getPromptHandler (name : String) (args : List (String × String)) :
    Except String GetPromptReply :=
  if name = "create-branded-diagram" then
    .ok (.brandedDiagram
      (jsOrStr (args.lookup "diagramType") "flowchart")
      (jsOrStr (args.lookup "description") "a diagram"))
  else if name = "iterate-and-refine" then
    .ok (.iterateAndRefine
      (jsOrStr (args.lookup "sessionId") "[sessionId]")
      (jsOrStr (args.lookup "assetId") "[assetId]")
      (if jsTruthy (args.lookup "issue") then args.lookup "issue" else none))
  else if name = "create-asset-set" then
    let assetType := jsOrStr (args.lookup "assetType") "icons"
    let count := jsOrInt (jsParseInt (args.lookup "count")) 3
    let kind := jsOrStr (kindMap.lookup assetType) "illustration"
    .ok (.assetSet assetType count kind)
  else if name = "quick-icon" then
    let style := jsOrStr (args.lookup "style") "filled"
    let styleDesc :=
      jsOrStr (styleGuide.lookup style) "solid filled shapes, clean and simple"
    .ok (.quickIcon (jsOrStr (args.lookup "iconDescription") "an icon") style styleDesc)
  else .error ("Unknown prompt: " ++ name)

/-! ## Read-resource handler (`mcp.ts` lines 175-210) -/

/-- Outcome of a resource read at the provider boundary: either the URI
passed validation and the read was delegated to `getAssetFile`, or the
handler threw before any delegation. -/
inductive ReadOutcome
  | delegated (sessionId assetId : String)
  | failed (msg : String)
deriving DecidableEq, Repr

/-- The read-resource request handler: `asset://` URIs are stripped of the
scheme, split on `/` into exactly two parts, and both parts must match the
UUID pattern before the downstream fetch; any other scheme throws. -/
def readResourceHandler (uri : String) : ReadOutcome :=
  if jsStartsWith uri "asset://" then
    let parts := jsSplitSlash ⟨uri.data.drop 8⟩
    if parts.length ≠ 2 then
      .failed "Invalid asset URI format. Expected: asset://\x7bsessionId\x7d/\x7bassetId\x7d"
    else
      let sessionId := parts.headI
      let assetId := parts.getLastI
      if !isUuid sessionId || !isUuid assetId then
        .failed "Invalid session ID or asset ID format - must be valid UUIDs"
      else
        .delegated sessionId assetId
  else
    .failed ("Unknown resource URI scheme: " ++ uri)

/-! ## Session state machine (`createServer` in `mcp.ts`, teardown in
`server.ts` / `server-http.ts`)

One `createServer()` call owns one session's mutable state: the
subscription set, the log level (initially `"debug"`), and three interval
timers (resource updates, random log messages, stderr messages).  Closing
the connection runs `cleanup()`, which clears all three intervals; after
`server.close()` the transport dispatches no further requests, so a closed
session processes no request commands.  Timer randomness (`Math.random`)
and wall-clock timestamps are supplied as command parameters. -/

/-- A notification emitted to the session's client. -/
inductive Notif
  | resourceUpdated (uri : String)
  | message (level : LoggingLevel) (logger : Option String) (data : String)
  | stderr (content : String)
deriving DecidableEq, Repr

/-- One session's state. -/
structure Session where
  subscriptions : List String
  logLevel : LoggingLevel
  subsTimer : Bool
  logsTimer : Bool
  stderrTimer : Bool
  closed : Bool
deriving DecidableEq, Repr

/-- State right after `createServer()`: empty subscriptions, level
`debug`, all three intervals armed. -/
def initialSession : Session :=
  { subscriptions := []
    logLevel := .debug
    subsTimer := true
    logsTimer := true
    stderrTimer := true
    closed := false }

/-- An inbound request dispatched by the connected transport. -/
inductive Request
  | callTool (name : String) (args : Json)
  | subscribe (uri : String)
  | unsubscribe (uri : String)
  | setLevel (level : LoggingLevel)
  | readResource (uri : String)
  | getPrompt (name : String) (args : List (String × String))
  | complete (ref : CompleteRef) (argName argValue : String)

/-- A request handler's successful reply, with external boundaries
(`execute`, `getAssetFile`) recorded as the delegation they perform. -/
inductive Reply
  | empty
  | toolExec (tool : ToolNames) (validated : Json)
  | resourceRead (sessionId assetId : String)
  | promptReply (r : GetPromptReply)
  | completions (values : List String)

/-- An event a live session can undergo: a dispatched request, a tick of
one of the three interval timers (`k` selects the random log message,
`ts` is the formatted timestamp), or connection close. -/
inductive Cmd
  | request (r : Request)
  | tickSubs
  | tickLogs (k : Nat)
  | tickStderr (ts : String)
  | close

/-- Dispatch one request against the session state, returning the new
state, the notifications emitted, and the handler's result. -/
def dispatch (t : Transport) (store : List (String × String))
    (s : Session) : Request → Session × List Notif × Except String Reply
  | .callTool name args =>
    match callToolHandler t store name args with
    | .ok (tn, v) => (s, [], .ok (.toolExec tn v))
    | .error e => (s, [], .error e)
  | .subscribe uri =>
    ({ s with subscriptions := subscribeSet s.subscriptions uri }, [], .ok .empty)
  | .unsubscribe uri =>
    ({ s with subscriptions := unsubscribeSet s.subscriptions uri }, [], .ok .empty)
  | .setLevel level =>
    ({ s with logLevel := level },
     [.message .debug (some "test-server") ("Logging level set to: " ++ level.name)],
     .ok .empty)
  | .readResource uri =>
    match readResourceHandler uri with
    | .delegated a b => (s, [], .ok (.resourceRead a b))
    | .failed m => (s, [], .error m)
  | .getPrompt name args =>
    match getPromptHandler name args with
    | .ok r => (s, [], .ok (.promptReply r))
    | .error e => (s, [], .error e)
  | .complete ref argName argValue =>
    match completeHandler ref argName argValue with
    | .ok vs => (s, [], .ok (.completions vs))
    | .error e => (s, [], .error e)

/-- One step of a session: requests are dispatched only while the session
is open; each timer tick emits its notifications only while its interval
is armed; close runs `cleanup()` (clearing all three intervals). -/
def step (t : Transport) (store : List (String × String))
    (s : Session) : Cmd → Session × List Notif × Option (Except String Reply)
  | .request r =>
    if s.closed then (s, [], none)
    else
      let (s', ns, res) := dispatch t store s r
      (s', ns, some res)
  | .tickSubs =>
    (s, if s.subsTimer then s.subscriptions.map Notif.resourceUpdated else [], none)
  | .tickLogs k =>
    let msg := messages.getI (k % messages.length)
    (s,
     if s.logsTimer && !isMessageIgnored s.logLevel msg.level then
       [.message msg.level none msg.data]
     else [],
     none)
  | .tickStderr ts =>
    (s, if s.stderrTimer then [.stderr (ts ++ ": A stderr message")] else [], none)
  | .close =>
    ({ s with subsTimer := false, logsTimer := false, stderrTimer := false,
              closed := true }, [], none)

/-- Run a session through a command sequence, collecting every emitted
notification in order. -/
def runSession (t : Transport) (store : List (String × String)) :
    Session → List Cmd → Session × List Notif
  | s, [] => (s, [])
  | s, c :: cs =>
    let (s', ns, _) := step t store s c
    let (s'', ns') := runSession t store s' cs
    (s'', ns ++ ns')

/-! ## Streamable-HTTP transport adapter (`src/server-http.ts`)

The Express routes keep a `sessions` map from session id to the session's
transport.  A POST whose `mcp-session-id` header names a registered
session is routed to it; otherwise a fresh server and transport are built
and the request is handed to them.  GET and DELETE require a registered
id and answer 400 otherwise.

Modelled from the spec: `StreamableHTTPServerTransport.handleRequest`
(an SDK dependency, not part of `src/`) on a freshly constructed,
uninitialized transport.  Per the transport-adapter contract, only an
initialize request creates a session — the transport generates a fresh id,
fires `onsessioninitialized` (which registers the session and binds the
`x-app-id` header), and returns the id to the caller; any non-initialize
request on an uninitialized transport is rejected with a client error and
`onsessioninitialized` never fires. -/

/-- The transport-adapter state shared by the Express routes: the
registered session ids (keys of the `sessions` map, in creation order)
and the credential binding store. -/
structure HttpState where
  sessions : List String
  appIds : List (String × String)
deriving DecidableEq, Repr

/-- The visible outcome of one HTTP request against `/mcp`. -/
inductive HttpResponse
  | handledExisting (sessionId : String)
  | sessionCreated (sessionId : String)
  | clientError (status : Nat) (msg : String)
deriving DecidableEq, Repr

/-- `app.post("/mcp")`: route to the registered session when the header
names one; otherwise build a fresh transport, which per the contract above
accepts only an initialize request (`isInit`, with `newSid` the id its
generator produces and `xAppId` the creation header). -/
def postMcp (st : HttpState) (header : Option String) (isInit : Bool)
    (xAppId : Option String) (newSid : String) : HttpState × HttpResponse :=
  if jsTruthy header && (jsOrStr header "") ∈ st.sessions then
    (st, .handledExisting (jsOrStr header ""))
  else if isInit then
    ({ sessions := st.sessions ++ [newSid]
       appIds :=
         match xAppId with
         | some a => if a ≠ "" then setAppId st.appIds newSid a else st.appIds
         | none => st.appIds },
     .sessionCreated newSid)
  else
    (st, .clientError 400 "Bad Request: Server not initialized")

/-- `app.get("/mcp")`: reject a missing or unregistered session id with
status 400, otherwise hand the request to the session's transport. -/
def getMcp (st : HttpState) (header : Option String) : HttpResponse :=
  if !jsTruthy header || (jsOrStr header "") ∉ st.sessions then
    .clientError 400 "Invalid or missing session ID"
  else
    .handledExisting (jsOrStr header "")

/-- `app.delete("/mcp")`: same guard as GET. -/
def deleteMcp (st : HttpState) (header : Option String) : HttpResponse :=
  if !jsTruthy header || (jsOrStr header "") ∉ st.sessions then
    .clientError 400 "Invalid or missing session ID"
  else
    .handledExisting (jsOrStr header "")

/-! ## Identity binding and resolution (`server.ts`, `mcp.ts`, `utils/og.ts`) -/

/-- `app.get("/sse")` of `server.ts`: connect the transport, then
`setAppId(transport.sessionId, appIdFromQuery)`.  An absent query
parameter stores `undefined`, which is indistinguishable from an absent
key through `getAppId` (the store's only reader), so it is modelled as not
storing.  The connection is established regardless — no identity is
required at session creation. -/
def sseConnect (store : List (String × String)) (sessionId : String)
    (queryAppId : Option String) : List (String × String) :=
  match queryAppId with
  | some a => setAppId store sessionId a
  | none => store

/-- The process environment variables the identity fallback reads. -/
structure Env where
  appIdVar : Option String
  opengraphAppIdVar : Option String
deriving DecidableEq, Repr

/-- `getAppId` of `utils/og.ts`:
`app_id || process.env.APP_ID || process.env.OPENGRAPH_APP_ID || ''`. -/
def ogGetAppId (app_id : Option String) (env : Env) : String :=
  jsOrStr app_id (jsOrStr env.appIdVar (jsOrStr env.opengraphAppIdVar ""))

/-- The App ID argument the call-tool handler passes to an OpenGraph data
tool's constructor: for session-bearing transports the stored binding is
required (`"Could not find App ID for session."` otherwise); for stdio no
binding is consulted. -/
def ogToolAppIdParam (t : Transport) (store : List (String × String)) :
    Except String (Option String) :=
  let isSSETransport := t.hasSessionIdProp
  let appId : Option String :=
    if isSSETransport then getAppId store t.sessionIdStr else none
  if isSSETransport && !jsTruthy appId then
    .error "Could not find App ID for session."
  else
    .ok appId

/-- The identity an OpenGraph data tool call ends up using: the handler's
App ID check composed with the env fallback of `utils/og.ts`, whose
wrappers throw when the resolved id is empty. -/
def ogToolIdentity (t : Transport) (store : List (String × String))
    (env : Env) : Except String String :=
  match ogToolAppIdParam t store with
  | .error e => .error e
  | .ok appId =>
    let actual := ogGetAppId appId env
    if actual = "" then
      .error "OpenGraph app_id is required. Provide it as an argument or set OPENGRAPH_APP_ID environment variable."
    else
      .ok actual

/-! ## Helper lemmas -/

/-- Looking up a key right after `Map.set` yields the stored value. -/
theorem lookup_jsMapSet (m : List (String × String)) (k v : String) :
    (jsMapSet m k v).lookup k = some v := by
  by_cases hk : k ∈ m.map Prod.fst
  · simp only [jsMapSet, if_pos hk]
    induction m with
    | nil => simp at hk
    | cons p rest ih =>
      by_cases hp : p.1 = k
      · rw [List.map_cons, if_pos hp]
        simp [List.lookup]
      · have hmem : k ∈ rest.map Prod.fst := by
          rcases (by simpa using hk : k = p.1 ∨ ∃ x, (k, x) ∈ rest) with h | ⟨x, hx⟩
          · exact absurd h.symm hp
          · exact List.mem_map.mpr ⟨(k, x), hx, rfl⟩
        have hne : (k == p.1) = false :=
          beq_eq_false_iff_ne.mpr fun h => hp h.symm
        rw [List.map_cons, if_neg hp]
        simpa [List.lookup, hne] using ih hmem
  · simp only [jsMapSet, if_neg hk]
    induction m with
    | nil => simp [List.lookup]
    | cons p rest ih =>
      have hp : ¬(p.1 = k) := fun h => hk (by simp [h.symm])
      have hne : (k == p.1) = false :=
        beq_eq_false_iff_ne.mpr fun h => hp h.symm
      have hk' : k ∉ rest.map Prod.fst := fun h => hk (by simp [h])
      simpa [List.lookup, hne] using ih hk'

/-- The subscription add is idempotent. -/
theorem subscribeSet_idem (s : List String) (u : String) :
    subscribeSet (subscribeSet s u) u = subscribeSet s u := by
  unfold subscribeSet
  by_cases h : u ∈ s
  · simp [h]
  · simp [h]

/-- Adding keeps the set duplicate-free. -/
theorem subscribeSet_nodup {s : List String} (h : s.Nodup) (u : String) :
    (subscribeSet s u).Nodup := by
  unfold subscribeSet
  by_cases hm : u ∈ s
  · simpa [hm] using h
  · rw [if_neg hm]
    refine List.Nodup.append h (List.nodup_singleton u) ?_
    intro x hx hxu
    rw [List.mem_singleton] at hxu
    exact hm (hxu ▸ hx)

/-- One subscribe/unsubscribe step keeps the set duplicate-free. -/
theorem applySubOp_nodup {s : List String} (h : s.Nodup) (u : String) (op : SubOp) :
    (applySubOp s u op).Nodup := by
  cases op with
  | sub => exact subscribeSet_nodup h u
  | unsub => exact h.erase u

/-- Any subscribe/unsubscribe sequence keeps the set duplicate-free. -/
theorem applySubOps_nodup {s : List String} (h : s.Nodup) (u : String)
    (ops : List SubOp) : (applySubOps s u ops).Nodup := by
  induction ops generalizing s with
  | nil => exact h
  | cons op ops ih => exact ih (applySubOp_nodup h u op)

/-- URIs other than the operated one are untouched by one step. -/
theorem applySubOp_mem_other {s : List String} {u v : String} (hvu : v ≠ u)
    (op : SubOp) : v ∈ applySubOp s u op ↔ v ∈ s := by
  cases op with
  | sub =>
    unfold applySubOp subscribeSet
    by_cases hm : u ∈ s
    · simp [hm]
    · simp [hm, hvu]
  | unsub =>
    unfold applySubOp unsubscribeSet
    exact List.mem_erase_of_ne hvu

/-- URIs other than the operated one are untouched by any sequence. -/
theorem applySubOps_mem_other {s : List String} {u v : String} (hvu : v ≠ u)
    (ops : List SubOp) : v ∈ applySubOps s u ops ↔ v ∈ s := by
  induction ops generalizing s with
  | nil => exact Iff.rfl
  | cons op ops ih => exact (ih (s := applySubOp s u op)).trans (applySubOp_mem_other hvu op)

/-- Final membership of the operated URI is decided by the last operation
of the sequence (or the initial state when the sequence is empty). -/
theorem applySubOps_mem_last {s : List String} (h : s.Nodup) (u : String)
    (ops : List SubOp) :
    (u ∈ applySubOps s u ops ↔
      (match ops.getLast? with
       | some .sub => True
       | some .unsub => False
       | none => u ∈ s)) := by
  induction ops generalizing s with
  | nil => simp [applySubOps]
  | cons op ops ih =>
    cases ops with
    | nil =>
      cases op with
      | sub =>
        unfold applySubOps applySubOp subscribeSet
        by_cases hm : u ∈ s <;> simp [applySubOps, hm]
      | unsub =>
        unfold applySubOps applySubOp unsubscribeSet
        simp [applySubOps, h.mem_erase_iff]
    | cons op2 ops2 =>
      rcases hgl : (op2 :: ops2).getLast? with _ | l
      · exact absurd (List.getLast?_eq_none_iff.mp hgl) (by simp)
      · have hih := ih (s := applySubOp s u op) (applySubOp_nodup h u op)
        rw [hgl] at hih
        rw [show applySubOps s u (op :: op2 :: ops2) =
              applySubOps (applySubOp s u op) u (op2 :: ops2) from rfl,
            List.getLast?_cons_cons, hgl]
        cases l <;> simpa using hih

/-- A torn-down session: connection closed and all three intervals cleared,
exactly the state `cleanup()` plus the close signal leaves behind. -/
def Torndown (s : Session) : Prop :=
  s.subsTimer = false ∧ s.logsTimer = false ∧ s.stderrTimer = false ∧
  s.closed = true

/-- A torn-down session stays torn down and emits nothing, whatever the
next event is. -/
theorem step_torndown {s : Session} (h : Torndown s)
    (t : Transport) (store : List (String × String)) (c : Cmd) :
    Torndown (step t store s c).1 ∧ (step t store s c).2.1 = [] := by
  obtain ⟨h1, h2, h3, h4⟩ := h
  cases c with
  | request r => simp [step, h4, Torndown, h1, h2, h3]
  | tickSubs => simp [step, h1, Torndown, h2, h3, h4]
  | tickLogs k => simp [step, h2, Torndown, h1, h3, h4]
  | tickStderr ts => simp [step, h3, Torndown, h1, h2, h4]
  | close => simp [step, Torndown, h4]

/-- A torn-down session emits no notification over any event sequence. -/
theorem runSession_torndown {s : Session} (h : Torndown s)
    (t : Transport) (store : List (String × String)) (cmds : List Cmd) :
    (runSession t store s cmds).2 = [] := by
  induction cmds generalizing s with
  | nil => rfl
  | cons c cs ih =>
    obtain ⟨hT, hE⟩ := step_torndown h t store c
    simp [runSession, hE, ih hT]

/-- C3: once a session is Closed (the connection-close handler has run
`cleanup()`), no resource-update, log, or stderr notification is ever
emitted for it: the close step itself emits nothing, and every sequence of
later events — timer ticks scheduled earlier included — emits nothing. -/
theorem closed_session_emits_no_notifs (t : Transport)
    (store : List (String × String)) (s : Session) (cmds : List Cmd) :
    (step t store s .close).2.1 = [] ∧
    (runSession t store (step t store s .close).1 cmds).2 = [] := by
  refine ⟨rfl, runSession_torndown ?_ t store cmds⟩
  simp [step, Torndown]

/-- C10: the credential store's operations are total on invalid keys — an
empty session id leaves the map unchanged (`setAppId`, `deleteAppId`) or
returns `undefined` (`getAppId`) — and for a nonempty session id a
`setAppId` is observable by the next `getAppId`. -/
theorem appIdStore_total_and_roundtrip (m : List (String × String))
    (sid appId : String) :
    setAppId m "" appId = m ∧
    deleteAppId m "" = m ∧
    getAppId m "" = none ∧
    (sid ≠ "" → getAppId (setAppId m sid appId) sid = some appId) := by
  refine ⟨rfl, rfl, rfl, fun hsid => ?_⟩
  simp only [setAppId, getAppId, if_neg hsid]
  exact lookup_jsMapSet m sid appId

/-- Concrete run of `appIdStore_total_and_roundtrip` at a nonempty id. -/
theorem appIdStore_total_and_roundtrip_witness :
    ("sess-1" : String) ≠ "" ∧
    getAppId (setAppId [] "sess-1" "app-42") "sess-1" = some "app-42" :=
  ⟨by decide, (appIdStore_total_and_roundtrip [] "sess-1" "app-42").2.2.2 (by decide)⟩

/-- C2: subscribe/unsubscribe are idempotent and the final subscription
state is the net effect of any request sequence on one URI — a second
subscribe is a no-op, unsubscribing a non-subscribed URI is a no-op and
not an error, membership of the operated URI after the sequence is decided
by its last operation, other URIs are untouched, the set stays
duplicate-free, and a resource-update timer tick therefore notifies each
URI at most once. -/
theorem subscription_net_effect (s : List String) (u v : String)
    (ops : List SubOp) (t : Transport) (store : List (String × String))
    (sess : Session) :
    subscribeSet (subscribeSet s u) u = subscribeSet s u ∧
    (u ∉ s → unsubscribeSet s u = s) ∧
    (dispatch t store sess (.unsubscribe u)).2.2 = .ok .empty ∧
    (dispatch t store sess (.subscribe u)).1.subscriptions =
      subscribeSet sess.subscriptions u ∧
    (dispatch t store sess (.unsubscribe u)).1.subscriptions =
      unsubscribeSet sess.subscriptions u ∧
    (s.Nodup → (applySubOps s u ops).Nodup) ∧
    (s.Nodup →
      (u ∈ applySubOps s u ops ↔
        (match ops.getLast? with
         | some .sub => True
         | some .unsub => False
         | none => u ∈ s))) ∧
    (v ≠ u → (v ∈ applySubOps s u ops ↔ v ∈ s)) ∧
    (sess.subscriptions.Nodup →
      ((step t store sess .tickSubs).2.1).count (.resourceUpdated u) ≤ 1) := by
  refine ⟨subscribeSet_idem s u, List.erase_of_not_mem, rfl, rfl, rfl,
    fun h => applySubOps_nodup h u ops,
    fun h => applySubOps_mem_last h u ops,
    fun hvu => applySubOps_mem_other hvu ops,
    fun h => ?_⟩
  simp only [step]
  by_cases ht : sess.subsTimer
  · simp only [ht, if_true]
    rw [List.count_map_of_injective _ Notif.resourceUpdated
      (fun a b hab => by cases hab; rfl)]
    exact List.nodup_iff_count_le_one.mp h u
  · simp [ht]

/-- Concrete run of `subscription_net_effect`: subscribing twice and
unsubscribing once to the same URI ends with the URI unsubscribed, and
unsubscribing from a set not containing the URI changes nothing. -/
theorem subscription_net_effect_witness :
    ("u2" : String) ∉ ["u1"] ∧ unsubscribeSet ["u1"] "u2" = ["u1"] ∧
    (List.Nodup ["u1"] ∧
      ("u2" ∈ applySubOps ["u1"] "u2" [.sub, .sub, .unsub] ↔ False)) := by
  refine ⟨by decide, ?_, by decide, ?_⟩
  · exact (subscription_net_effect ["u1"] "u2" "x" [] .stdio [] initialSession).2.1
      (by decide)
  · simpa using
      (subscription_net_effect ["u1"] "u2" "x" [.sub, .sub, .unsub] .stdio []
        initialSession).2.2.2.2.2.2.1 (by decide)

/-- `isMessageIgnored` computes exactly "strictly below on the severity
ladder": the `findIndex` positions in the `messages` array coincide with
the ladder positions. -/
theorem isMessageIgnored_eq_ladder (logLevel level : LoggingLevel) :
    isMessageIgnored logLevel level =
      decide (severityIdx level < severityIdx logLevel) := by
  cases logLevel <;> cases level <;> rfl

/-- C4: set-log-level updates the session threshold and emits exactly one
confirmation notification; a scheduled log message is then suppressed iff
its level is strictly below the threshold on the ladder debug < info <
notice < warning < error < critical < alert < emergency — with threshold
`warning`, the `info` tick is suppressed and the `error` tick delivered. -/
theorem setLevel_updates_and_filters (t : Transport)
    (store : List (String × String)) (s : Session) (l ml : LoggingLevel)
    (hopen : s.closed = false) :
    (step t store s (.request (.setLevel l))).1 = { s with logLevel := l } ∧
    (step t store s (.request (.setLevel l))).2.1 =
      [.message .debug (some "test-server") ("Logging level set to: " ++ l.name)] ∧
    isMessageIgnored l ml = decide (severityIdx ml < severityIdx l) ∧
    isMessageIgnored .warning .info = true ∧
    isMessageIgnored .warning .error = false ∧
    (step t store { initialSession with logLevel := .warning }
      (.tickLogs 1)).2.1 = [] ∧
    (step t store { initialSession with logLevel := .warning }
      (.tickLogs 4)).2.1 = [.message .error none "Error-level message"] := by
  refine ⟨?_, ?_, isMessageIgnored_eq_ladder l ml, rfl, rfl, rfl, rfl⟩
  · simp [step, dispatch, hopen]
  · simp [step, dispatch, hopen]

/-- Concrete run of `setLevel_updates_and_filters` on a fresh session. -/
theorem setLevel_updates_and_filters_witness :
    initialSession.closed = false ∧
    (step .stdio [] initialSession (.request (.setLevel .warning))).1 =
      { initialSession with logLevel := .warning } :=
  ⟨rfl, (setLevel_updates_and_filters .stdio [] initialSession .warning .info rfl).1⟩

/-- C5 counterexample: for partial value `"FLOW"` on argument
`diagramType`, the handler returns `["flowchart"]`, yet `"flowchart"` does
not start with `"FLOW"` — the code matches prefixes case-insensitively,
not literally as the claim states. -/
theorem complete_literal_prefix_cex :
    completeHandler (.prompt "create-branded-diagram") "diagramType" "FLOW" =
      .ok ["flowchart"] ∧
    jsStartsWith "flowchart" "FLOW" = false := by
  exact ⟨rfl, rfl⟩

/-- C5 (amended): a completion on a known prompt argument returns exactly
the candidates whose lowercased value starts with the lowercased partial
string, in original candidate order (a sublist of the candidate list); an
unrecognized argument name or a resource ref yields an empty list, never
an error. -/
theorem complete_prefix_case_insensitive (rn pn argName argValue : String) :
    completeHandler (.resource rn) argName argValue = .ok [] ∧
    (EXAMPLE_COMPLETIONS.lookup argName = none →
      completeHandler (.prompt pn) argName argValue = .ok []) ∧
    (∀ cs, EXAMPLE_COMPLETIONS.lookup argName = some cs →
      completeHandler (.prompt pn) argName argValue =
        .ok (cs.filter fun value =>
          jsStartsWith (jsToLowerCase value) (jsToLowerCase argValue)) ∧
      (cs.filter fun value =>
        jsStartsWith (jsToLowerCase value) (jsToLowerCase argValue)).Sublist cs) ∧
    (∃ r, completeHandler (.prompt pn) argName argValue = .ok r) := by
  refine ⟨rfl, fun hn => ?_, fun cs hcs => ?_, ?_⟩
  · simp [completeHandler, hn]
  · exact ⟨by simp [completeHandler, hcs], List.filter_sublist cs⟩
  · unfold completeHandler
    cases EXAMPLE_COMPLETIONS.lookup argName <;> exact ⟨_, rfl⟩

/-- Concrete run of `complete_prefix_case_insensitive`: partial `"i"` on
`assetType` keeps `icons` and `illustrations`, in candidate order. -/
theorem complete_prefix_case_insensitive_witness :
    EXAMPLE_COMPLETIONS.lookup "assetType" =
      some ["icons", "social-cards", "diagrams", "illustrations"] ∧
    completeHandler (.prompt "create-asset-set") "assetType" "i" =
      .ok ["icons", "illustrations"] := by
  refine ⟨rfl, ?_⟩
  have h := ((complete_prefix_case_insensitive "r" "create-asset-set"
    "assetType" "i").2.2.1 ["icons", "social-cards", "diagrams", "illustrations"]
    rfl).1
  simpa using h

/-- C1: a tool-call request whose name is not registered, or whose
arguments fail the named tool's declared input schema, is rejected
synchronously with an error — no `execute` is reached (the dispatch
produces no `toolExec` delegation), no notification is emitted, and the
session state (subscription set, log level, timers) is unchanged. -/
theorem callTool_invalid_rejected (t : Transport)
    (store : List (String × String)) (s : Session) (name : String)
    (args : Json) (hopen : s.closed = false)
    (h : toolNameOf name = none ∨
      ∃ tn, toolNameOf name = some tn ∧ parseObject (toolSchema tn) args = none) :
    ∃ e, step t store s (.request (.callTool name args)) =
      (s, [], some (.error e)) := by
  have hstep : step t store s (.request (.callTool name args)) =
      (s, [],
       some ((callToolHandler t store name args).map (fun p => .toolExec p.1 p.2))) := by
    simp only [step, hopen, if_neg (by simp : ¬(false = true)), dispatch]
    cases hc : callToolHandler t store name args with
    | ok p => cases p; simp [Except.map]
    | error e => simp [Except.map]
  rcases h with hname | ⟨tn, htn, hparse⟩
  · refine ⟨"Unknown tool: " ++ name, ?_⟩
    rw [hstep]
    simp [callToolHandler, hname, Except.map]
  · rw [hstep]
    simp only [callToolHandler, htn]
    by_cases hguard :
        (requiresAppId tn &&
          (t.hasSessionIdProp && !jsTruthy
            (if t.hasSessionIdProp then getAppId store t.sessionIdStr else none))) = true
    · exact ⟨"Could not find App ID for session.", by simp [hguard, Except.map]⟩
    · exact ⟨"Invalid arguments: input schema validation failed",
        by simp [hguard, hparse, Except.map]⟩

/-- Concrete runs of `callTool_invalid_rejected`: the unregistered name
`doesNotExist`, and `getOgData` called with a non-URL argument. -/
theorem callTool_invalid_rejected_witness :
    initialSession.closed = false ∧
    (∃ e, step .stdio [] initialSession
      (.request (.callTool "doesNotExist" (.obj []))) =
        (initialSession, [], some (.error e))) ∧
    (∃ e, step .stdio [] initialSession
      (.request (.callTool "getOgData" (.obj [("url", .str "not a url")]))) =
        (initialSession, [], some (.error e))) :=
  ⟨rfl,
   callTool_invalid_rejected .stdio [] initialSession "doesNotExist"
     (.obj []) rfl (Or.inl rfl),
   callTool_invalid_rejected .stdio [] initialSession "getOgData"
     (.obj [("url", .str "not a url")]) rfl
     (Or.inr ⟨.getOgData, rfl, rfl⟩)⟩

/-- C7: the read-resource handler validates URI shape before any
delegation — a non-`asset://` scheme fails with the unknown-scheme error;
a delegation happens only for a URI splitting into exactly the two path
parameters it forwards, both matching the UUID pattern; and any
`asset://` URI violating part count or UUID shape fails without
delegation. -/
theorem readResource_validates_before_delegation (uri : String) :
    (jsStartsWith uri "asset://" = false →
      readResourceHandler uri = .failed ("Unknown resource URI scheme: " ++ uri)) ∧
    (∀ sid aid, readResourceHandler uri = .delegated sid aid →
      jsStartsWith uri "asset://" = true ∧
      jsSplitSlash ⟨uri.data.drop 8⟩ = [sid, aid] ∧
      isUuid sid = true ∧ isUuid aid = true) ∧
    (jsStartsWith uri "asset://" = true →
      ((jsSplitSlash ⟨uri.data.drop 8⟩).length ≠ 2 ∨
        ¬(∀ p ∈ jsSplitSlash ⟨uri.data.drop 8⟩, isUuid p = true)) →
      ∃ m, readResourceHandler uri = .failed m) := by
  refine ⟨fun h => by simp [readResourceHandler, h], ?_, ?_⟩
  · intro sid aid hdel
    by_cases hs : jsStartsWith uri "asset://"
    · refine ⟨hs, ?_⟩
      simp only [readResourceHandler, hs, if_true] at hdel
      rcases hL : jsSplitSlash ⟨uri.data.drop 8⟩ with _ | ⟨a, _ | ⟨b, _ | ⟨c, rest⟩⟩⟩ <;>
        rw [hL] at hdel <;> simp [List.getLastI] at hdel
      by_cases ha : isUuid a <;> by_cases hb : isUuid b <;>
        simp [ha, hb] at hdel
      obtain ⟨hsa, hsb⟩ := hdel
      subst hsa
      subst hsb
      exact ⟨rfl, ha, hb⟩
    · simp [readResourceHandler, hs] at hdel
  · intro hs hbad
    simp only [readResourceHandler, hs, if_true]
    rcases hL : jsSplitSlash ⟨uri.data.drop 8⟩ with _ | ⟨a, _ | ⟨b, _ | ⟨c, rest⟩⟩⟩ <;>
      rw [hL] at hbad
    · exact ⟨_, by rw [if_pos (by simp : (([] : List String)).length ≠ 2)]⟩
    · exact ⟨_, by rw [if_pos (by simp : (([a] : List String)).length ≠ 2)]⟩
    · have h2 : ¬(∀ p ∈ ([a, b] : List String), isUuid p = true) := by
        rcases hbad with h | h
        · exact absurd (by simp : (([a, b] : List String)).length = 2) h
        · exact h
      have hor : isUuid a = false ∨ isUuid b = false := by
        by_cases ha : isUuid a
        · by_cases hb : isUuid b
          · exact absurd (by
              intro p hp
              rcases List.mem_cons.mp hp with h | h
              · exact h ▸ ha
              · rcases List.mem_singleton.mp h with h
                exact h ▸ hb) h2
          · exact Or.inr (by simpa using hb)
        · exact Or.inl (by simpa using ha)
      refine ⟨"Invalid session ID or asset ID format - must be valid UUIDs", ?_⟩
      rw [if_neg (by simp : ¬(([a, b] : List String)).length ≠ 2)]
      rcases hor with h | h
      · rw [if_pos (by simp [List.getLastI, h])]
      · rw [if_pos (by simp [List.getLastI, h])]
    · exact ⟨_, by rw [if_pos (by simp only [List.length_cons]; omega :
        ((a :: b :: c :: rest : List String)).length ≠ 2)]⟩

/-- Concrete runs of `readResource_validates_before_delegation`: a foreign
scheme is refused, and a malformed `asset://` URI fails without
delegation. -/
theorem readResource_validates_witness :
    jsStartsWith "file:///etc/passwd" "asset://" = false ∧
    readResourceHandler "file:///etc/passwd" =
      .failed "Unknown resource URI scheme: file:///etc/passwd" ∧
    (∃ m, readResourceHandler "asset://abc/def" = .failed m) := by
  refine ⟨rfl, ?_, ?_⟩
  · exact (readResource_validates_before_delegation "file:///etc/passwd").1 rfl
  · exact (readResource_validates_before_delegation "asset://abc/def").2.2 rfl
      (Or.inr (by decide))

/-- C6 counterexample: `diagramType` is declared required for
`create-branded-diagram`, yet a get-prompt request with no arguments at
all succeeds with the defaults substituted — the handler never validates
required arguments. -/
theorem getPrompt_no_required_validation_cex :
    listPromptsDecl.lookup "create-branded-diagram" =
      some [⟨"diagramType", true⟩, ⟨"description", true⟩] ∧
    getPromptHandler "create-branded-diagram" [] =
      .ok (.brandedDiagram "flowchart" "a diagram") :=
  ⟨rfl, rfl⟩

/-- C6 (amended): get-prompt on a name outside the four registered
templates fails with the unknown-prompt error; on a registered name it
always succeeds — a missing argument is not rejected but replaced by its
documented default — and supplied argument values are substituted into
the rendered message. -/
theorem getPrompt_unknown_fails_defaults_render (name : String)
    (args : List (String × String)) :
    (listPromptsDecl.lookup name = none →
      getPromptHandler name args = .error ("Unknown prompt: " ++ name)) ∧
    (listPromptsDecl.lookup name ≠ none →
      ∃ r, getPromptHandler name args = .ok r) ∧
    (∀ dt ds, dt ≠ "" → ds ≠ "" →
      getPromptHandler "create-branded-diagram"
        [("diagramType", dt), ("description", ds)] =
        .ok (.brandedDiagram dt ds)) := by
  refine ⟨?_, ?_, ?_⟩
  · intro hn
    by_cases h1 : name = "create-branded-diagram"
    · rw [h1] at hn; simp [listPromptsDecl, List.lookup] at hn
    by_cases h2 : name = "iterate-and-refine"
    · rw [h2] at hn; simp [listPromptsDecl, List.lookup] at hn
    by_cases h3 : name = "create-asset-set"
    · rw [h3] at hn; simp [listPromptsDecl, List.lookup] at hn
    by_cases h4 : name = "quick-icon"
    · rw [h4] at hn; simp [listPromptsDecl, List.lookup] at hn
    simp [getPromptHandler, h1, h2, h3, h4]
  · intro hn
    by_cases h1 : name = "create-branded-diagram"
    · subst h1; exact ⟨_, rfl⟩
    by_cases h2 : name = "iterate-and-refine"
    · subst h2; exact ⟨_, rfl⟩
    by_cases h3 : name = "create-asset-set"
    · subst h3; exact ⟨_, rfl⟩
    by_cases h4 : name = "quick-icon"
    · subst h4; exact ⟨_, rfl⟩
    exfalso
    apply hn
    have b1 : (name == "create-branded-diagram") = false := beq_eq_false_iff_ne.mpr h1
    have b2 : (name == "iterate-and-refine") = false := beq_eq_false_iff_ne.mpr h2
    have b3 : (name == "create-asset-set") = false := beq_eq_false_iff_ne.mpr h3
    have b4 : (name == "quick-icon") = false := beq_eq_false_iff_ne.mpr h4
    simp [listPromptsDecl, List.lookup, b1, b2, b3, b4]
  · intro dt ds hdt hds
    simp [getPromptHandler, List.lookup, jsOrStr, hdt, hds]

/-- Concrete runs of `getPrompt_unknown_fails_defaults_render`: an
unregistered name fails, `quick-icon` succeeds with no arguments, and
supplied values are substituted. -/
theorem getPrompt_unknown_fails_defaults_render_witness :
    listPromptsDecl.lookup "no-such-prompt" = none ∧
    getPromptHandler "no-such-prompt" [] =
      .error ("Unknown prompt: " ++ "no-such-prompt") ∧
    (∃ r, getPromptHandler "quick-icon" [] = .ok r) ∧
    getPromptHandler "create-branded-diagram"
      [("diagramType", "sequence"), ("description", "auth flow")] =
      .ok (.brandedDiagram "sequence" "auth flow") :=
  ⟨rfl,
   (getPrompt_unknown_fails_defaults_render "no-such-prompt" []).1 rfl,
   (getPrompt_unknown_fails_defaults_render "quick-icon" []).2.1 (by decide),
   (getPrompt_unknown_fails_defaults_render "x" []).2.2 "sequence" "auth flow"
     (by decide) (by decide)⟩

/-- C8: on the request/response transport, a non-creating request whose
session id header is missing or names no registered session is rejected
with a 400 client error and the session table is unchanged (no session is
silently created) — on POST, GET and DELETE alike — while an initialize
request without an identifier creates a session and returns its id. -/
theorem http_session_id_guard (st : HttpState) (header : Option String)
    (xAppId : Option String) (newSid : String)
    (hbad : jsTruthy header = false ∨ (jsOrStr header "") ∉ st.sessions) :
    postMcp st header false xAppId newSid =
      (st, .clientError 400 "Bad Request: Server not initialized") ∧
    getMcp st header = .clientError 400 "Invalid or missing session ID" ∧
    deleteMcp st header = .clientError 400 "Invalid or missing session ID" ∧
    (postMcp st none true xAppId newSid).2 = .sessionCreated newSid ∧
    (postMcp st none true xAppId newSid).1.sessions = st.sessions ++ [newSid] := by
  have hc : (jsTruthy header && decide ((jsOrStr header "") ∈ st.sessions)) = false := by
    rcases hbad with h | h
    · simp [h]
    · simp [h]
  refine ⟨?_, ?_, ?_, ?_, ?_⟩
  · simp [postMcp, hc]
  · cases hjt : jsTruthy header with
    | false => simp [getMcp, hjt]
    | true =>
      have hm : (jsOrStr header "") ∉ st.sessions := by
        rcases hbad with h | h
        · rw [hjt] at h; cases h
        · exact h
      simp [getMcp, hjt, hm]
  · cases hjt : jsTruthy header with
    | false => simp [deleteMcp, hjt]
    | true =>
      have hm : (jsOrStr header "") ∉ st.sessions := by
        rcases hbad with h | h
        · rw [hjt] at h; cases h
        · exact h
      simp [deleteMcp, hjt, hm]
  · simp [postMcp, jsTruthy]
  · cases xAppId with
    | none => simp [postMcp, jsTruthy]
    | some a => by_cases ha : a = "" <;> simp [postMcp, jsTruthy, ha]

/-- Concrete runs of `http_session_id_guard`: an unrecognized id and a
missing id are both rejected with state untouched, and an initialize
request without an id creates the session. -/
theorem http_session_id_guard_witness :
    ((jsTruthy (some "stale") = false ∨
        (jsOrStr (some "stale") "") ∉ (⟨["live"], []⟩ : HttpState).sessions) ∧
      postMcp ⟨["live"], []⟩ (some "stale") false none "fresh" =
        (⟨["live"], []⟩, .clientError 400 "Bad Request: Server not initialized")) ∧
    getMcp ⟨["live"], []⟩ none = .clientError 400 "Invalid or missing session ID" ∧
    (postMcp ⟨["live"], []⟩ none true none "fresh").1.sessions = ["live", "fresh"] := by
  refine ⟨⟨Or.inr (by decide), ?_⟩, ?_, ?_⟩
  · exact (http_session_id_guard ⟨["live"], []⟩ (some "stale") none "fresh"
      (Or.inr (by decide))).1
  · exact (http_session_id_guard ⟨["live"], []⟩ none none "fresh"
      (Or.inl rfl)).2.1
  · simpa using (http_session_id_guard ⟨["live"], []⟩ none none "fresh"
      (Or.inl rfl)).2.2.2.2

/-- C9 counterexample: with a process-level environment default present
(`APP_ID = "env-app"`, which the fallback chain would resolve), an
OpenGraph tool call on an SSE session with no stored binding still fails
with the missing-App-ID error — the environment default is never consulted
on session-bearing transports, contradicting the claimed
query → header → environment precedence. -/
theorem identity_env_never_reached_cex :
    ogGetAppId none ⟨some "env-app", none⟩ = "env-app" ∧
    ogToolIdentity (.sse "sid-1") [] ⟨some "env-app", none⟩ =
      .error "Could not find App ID for session." :=
  ⟨rfl, rfl⟩

/-- C9 (amended): identity resolution is per transport — on the SSE and
request/response transports the session-bound value (query parameter at
connect, `x-app-id` header at creation) is the only source, a nonempty
binding is used as-is and a missing or empty binding fails the call with
the missing-App-ID error without consulting the environment; on stdio the
environment default applies (`APP_ID` before `OPENGRAPH_APP_ID`) and an
absent default fails per-call; session creation itself succeeds with no
identity supplied. -/
theorem identity_per_transport (store : List (String × String)) (env : Env)
    (sid newSid : String) (st : HttpState) :
    (∀ a, getAppId store sid = some a → a ≠ "" →
      ogToolIdentity (.sse sid) store env = .ok a ∧
      ogToolIdentity (.streamableHttp sid) store env = .ok a) ∧
    (getAppId store sid = none ∨ getAppId store sid = some "" →
      ogToolIdentity (.sse sid) store env =
        .error "Could not find App ID for session." ∧
      ogToolIdentity (.streamableHttp sid) store env =
        .error "Could not find App ID for session.") ∧
    (∀ e, env.appIdVar = some e → e ≠ "" →
      ogToolIdentity .stdio store env = .ok e) ∧
    (∀ o, (env.appIdVar = none ∨ env.appIdVar = some "") →
      env.opengraphAppIdVar = some o → o ≠ "" →
      ogToolIdentity .stdio store env = .ok o) ∧
    ((env.appIdVar = none ∨ env.appIdVar = some "") →
      (env.opengraphAppIdVar = none ∨ env.opengraphAppIdVar = some "") →
      ogToolIdentity .stdio store env =
        .error "OpenGraph app_id is required. Provide it as an argument or set OPENGRAPH_APP_ID environment variable.") ∧
    (∀ q, sid ≠ "" → q ≠ "" →
      getAppId (sseConnect store sid (some q)) sid = some q) ∧
    sseConnect store sid none = store ∧
    (postMcp st none true none newSid).2 = .sessionCreated newSid := by
  refine ⟨?_, ?_, ?_, ?_, ?_, ?_, rfl, ?_⟩
  · intro a ha hne
    constructor <;>
      simp [ogToolIdentity, ogToolAppIdParam, Transport.hasSessionIdProp,
        Transport.sessionIdStr, ha, jsTruthy, hne, ogGetAppId, jsOrStr]
  · intro h
    rcases h with h | h <;>
      constructor <;>
        simp [ogToolIdentity, ogToolAppIdParam, Transport.hasSessionIdProp,
          Transport.sessionIdStr, h, jsTruthy]
  · intro e he hne
    simp [ogToolIdentity, ogToolAppIdParam, Transport.hasSessionIdProp,
      ogGetAppId, jsOrStr, he, hne, jsTruthy]
  · intro o hA ho hne
    rcases hA with hA | hA <;>
      simp [ogToolIdentity, ogToolAppIdParam, Transport.hasSessionIdProp,
        ogGetAppId, jsOrStr, hA, ho, hne, jsTruthy]
  · intro hA hO
    rcases hA with hA | hA <;> rcases hO with hO | hO <;>
      simp [ogToolIdentity, ogToolAppIdParam, Transport.hasSessionIdProp,
        ogGetAppId, jsOrStr, hA, hO, jsTruthy]
  · intro q hsid hq
    simp only [sseConnect, setAppId, if_neg hsid, getAppId]
    exact lookup_jsMapSet store sid q
  · simp [postMcp, jsTruthy]

/-- Concrete runs of `identity_per_transport`: a stored binding is used on
the SSE transport; with no binding the call fails even though an
environment default exists; on stdio the environment default is used. -/
theorem identity_per_transport_witness :
    getAppId [("sid-9", "app-9")] "sid-9" = some "app-9" ∧
    ogToolIdentity (.sse "sid-9") [("sid-9", "app-9")] ⟨some "env-app", none⟩ =
      .ok "app-9" ∧
    ogToolIdentity .stdio [] ⟨some "env-app", none⟩ = .ok "env-app" := by
  refine ⟨rfl, ?_, ?_⟩
  · exact ((identity_per_transport [("sid-9", "app-9")] ⟨some "env-app", none⟩
      "sid-9" "n" ⟨[], []⟩).1 "app-9" rfl (by decide)).1
  · exact (identity_per_transport [] ⟨some "env-app", none⟩ "s" "n"
      ⟨[], []⟩).2.2.1 "env-app" rfl (by decide)

end OgMcp
